import Mathlib

/-!
Shallow embedding of the metadata-extraction and adaptive-compression core of
the `fotoscdo` repository (`app/services/image_service.py` and the
near-duplicate `app/test/diagnose_gps.py`), together with theorems settling
the specification claims about it.

Modelling conventions:
* Python floats are modelled by `ℚ` (exact arithmetic; the claims are about
  sign, structure and control flow, not rounding).
* Python exceptions are modelled explicitly with `Except PyError` inside the
  regions the source wraps in `try`/`except`; a bare `except` boundary turns
  an error into the fallback value the source uses.
* Third-party decoders (`piexif.load`, `exifread.process_file`, Pillow's
  `Image.open`, the XML parse of an XMP packet, the ISO6709 byte-regex) are
  external libraries, not repository code: their outputs are taken as inputs
  of the embedded functions, and everything the repository computes from
  those outputs is embedded from the source.
-/

/-- PyError models the Python exception classes that the embedded code paths
can raise. -/
inductive PyError where
  | typeError
  | zeroDivision
  | valueError
  | indexError
deriving DecidableEq, Repr

/-- PyRef models a Python value used as a hemisphere reference: either a
`str` or a `bytes` object (a list of byte values). -/
inductive PyRef where
  | str (s : String)
  | bytes (b : List Nat)
deriving DecidableEq, Repr

/-- hemiNegates embeds the membership test `ref in (b"S", b"W", "S", "W")`
from `ImageService._dms_to_dd` (image_service.py line 59): equality against
exactly the four uppercase values, byte 83 = S and byte 87 = W. -/
def hemiNegates (ref : PyRef) : Bool :=
  ref = PyRef.bytes [83] || ref = PyRef.bytes [87] ||
  ref = PyRef.str "S" || ref = PyRef.str "W"

/-- dms_to_dd embeds `ImageService._dms_to_dd` (image_service.py lines 56-61,
identical copy at diagnose_gps.py lines 110-115): `dd = d + m/60 + s/3600`,
negated when the reference is one of `b"S"`, `b"W"`, `"S"`, `"W"`. -/
def dms_to_dd (d m s : ℚ) (ref : PyRef) : ℚ :=
  let dd := d + m / 60 + s / 3600
  if hemiNegates ref then -dd else dd

/-- hemiIndicatesSW_ci is the SPEC-side predicate (not from the source): the
reference "indicates South or West, matched case-insensitively, in both text
and single-byte encodings of the reference letter" — so it also accepts the
lowercase letter s (byte 115) and w (byte 119). Used only to state the claim
that the source matches case-insensitively. -/
def hemiIndicatesSW_ci (ref : PyRef) : Bool :=
  match ref with
  | PyRef.str s => s = "S" || s = "s" || s = "W" || s = "w"
  | PyRef.bytes b => b = [83] || b = [87] || b = [115] || b = [119]

theorem dms_to_dd_of_negates (d m s : ℚ) (ref : PyRef)
    (h : hemiNegates ref = true) :
    dms_to_dd d m s ref = -(d + m / 60 + s / 3600) := by
  simp [dms_to_dd, h]

theorem dms_to_dd_of_not_negates (d m s : ℚ) (ref : PyRef)
    (h : hemiNegates ref = false) :
    dms_to_dd d m s ref = d + m / 60 + s / 3600 := by
  simp [dms_to_dd, h]

theorem dms_to_dd_abs (d m s : ℚ) (ref : PyRef) (h : 0 ≤ d + m / 60 + s / 3600) :
    |dms_to_dd d m s ref| = d + m / 60 + s / 3600 := by
  by_cases hr : hemiNegates ref
  · rw [dms_to_dd_of_negates d m s ref hr, abs_neg, abs_of_nonneg h]
  · rw [dms_to_dd_of_not_negates d m s ref (by simpa using hr), abs_of_nonneg h]

theorem dms_to_dd_neg_iff (d m s : ℚ) (ref : PyRef)
    (h : 0 < d + m / 60 + s / 3600) :
    dms_to_dd d m s ref < 0 ↔ hemiNegates ref = true := by
  by_cases hr : hemiNegates ref
  · rw [dms_to_dd_of_negates d m s ref hr]
    exact ⟨fun _ => hr, fun _ => by linarith⟩
  · rw [dms_to_dd_of_not_negates d m s ref (by simpa using hr)]
    constructor
    · intro hc; exact absurd (lt_trans h hc) (lt_irrefl 0)
    · intro hc; exact absurd hc (by simpa using hr)

/-- Claim C3 counterexample: the lowercase text reference "s" indicates South
under the claim's case-insensitive matching, yet `_dms_to_dd` leaves the value
positive: `dms_to_dd 10 0 0 "s" = 10 > 0`, not negative as the claim requires. -/
theorem dms_to_dd_case_insensitive_fails :
    hemiIndicatesSW_ci (PyRef.str "s") = true ∧
    dms_to_dd 10 0 0 (PyRef.str "s") = 10 ∧
    ¬ dms_to_dd 10 0 0 (PyRef.str "s") < 0 := by
  refine ⟨by decide, ?_, ?_⟩
  · simp [dms_to_dd, hemiNegates]
  · simp [dms_to_dd, hemiNegates]

/-- Claim C3 (amended): for nonnegative degrees/minutes/seconds with positive
total, `_dms_to_dd` returns a value whose magnitude is d + m/60 + s/3600 and
which is negative iff the hemisphere reference is exactly one of the four
uppercase forms `b"S"`, `b"W"`, `"S"`, `"W"` (case-SENSITIVE matching, in both
text and single-byte encodings). -/
theorem dms_to_dd_magnitude_and_sign (d m s : ℚ) (ref : PyRef)
    (hd : 0 ≤ d) (hm : 0 ≤ m) (hs : 0 ≤ s) (hpos : 0 < d + m / 60 + s / 3600) :
    |dms_to_dd d m s ref| = d + m / 60 + s / 3600 ∧
    (dms_to_dd d m s ref < 0 ↔ hemiNegates ref = true) :=
  ⟨dms_to_dd_abs d m s ref (le_of_lt hpos), dms_to_dd_neg_iff d m s ref hpos⟩

/-- Claim C3 witness: the amended theorem applied at d = 40, m = 26, s = 46,
ref = "W". -/
theorem dms_to_dd_magnitude_and_sign_witness :
    |dms_to_dd 40 26 46 (PyRef.str "W")| = 40 + 26 / 60 + 46 / 3600 ∧
    (dms_to_dd 40 26 46 (PyRef.str "W") < 0 ↔ hemiNegates (PyRef.str "W") = true) :=
  dms_to_dd_magnitude_and_sign 40 26 46 (PyRef.str "W")
    (by norm_num) (by norm_num) (by norm_num) (by norm_num)

/-- RatVal models the Python value stored for one component of a GPS rational
triple: either a `(numerator, denominator)` tuple or a plain number. -/
inductive RatVal where
  | pair (num den : ℚ)
  | num (x : ℚ)
deriving DecidableEq, Repr

/-- ratio_to_float embeds `ImageService._ratio_to_float` (image_service.py
lines 49-54, identical copy at diagnose_gps.py lines 103-108). On a pair with
denominator 0 the division raises ZeroDivisionError; the bare `except` then
evaluates `float(r)` on the tuple, which raises TypeError, and that TypeError
escapes the function. On a plain number, `r[0]` raises TypeError, the
`except` branch returns `float(r)` = the number itself. -/
def ratio_to_float : RatVal → Except PyError ℚ
  | RatVal.pair n d => if d = 0 then Except.error PyError.typeError else Except.ok (n / d)
  | RatVal.num x => Except.ok x

/-- GpsIfd models the Python dict `exif_dict["GPS"]` produced by
`piexif.load`: the four `gps_ifd.get(...)` lookups used by the resolver, each
absent (`None`) or present. Latitude/longitude values are tuples of rationals
(lists of `RatVal`), the hemisphere references arbitrary `PyRef` values. -/
structure GpsIfd where
  lat : Option (List RatVal)
  latRef : Option PyRef
  lon : Option (List RatVal)
  lonRef : Option PyRef
deriving Repr

/-- truthyVals embeds Python truthiness of `gps_ifd.get(...)` for a tuple of
rationals: `None` and the empty tuple are falsy. -/
def truthyVals : Option (List RatVal) → Bool
  | none => false
  | some l => !l.isEmpty

/-- truthyRef embeds Python truthiness of a hemisphere reference value:
`None`, the empty string and the empty bytes object are falsy. -/
def truthyRef : Option PyRef → Bool
  | none => false
  | some (PyRef.str s) => !(s = "")
  | some (PyRef.bytes b) => !b.isEmpty

/-- dmsOfVals embeds the three component reads of the piexif resolver
(image_service.py lines 105-107 and 110-112):
`d = _ratio_to_float(v[0])`, `m = _ratio_to_float(v[1]) if len(v) > 1 else
0.0`, `s = _ratio_to_float(v[2]) if len(v) > 2 else 0.0`; indexing an empty
tuple raises IndexError. -/
def dmsOfVals (l : List RatVal) : Except PyError (ℚ × ℚ × ℚ) :=
  match l with
  | [] => Except.error PyError.indexError
  | a :: rest => do
    let d ← ratio_to_float a
    let m ← match rest.get? 0 with
      | some v => ratio_to_float v
      | none => pure 0
    let s ← match rest.get? 1 with
      | some v => ratio_to_float v
      | none => pure 0
    pure (d, m, s)

/-- componentDd composes `dmsOfVals` with `_dms_to_dd` for one coordinate
component, exactly as image_service.py lines 105-108 do for latitude and
lines 110-113 for longitude. -/
def componentDd (l : List RatVal) (ref : PyRef) : Except PyError ℚ := do
  let t ← dmsOfVals l
  pure (dms_to_dd t.1 t.2.1 t.2.2 ref)

/-- piexifGpsBody is the `try` body of
`ImageService._extract_gps_from_piexif_bytes` (image_service.py lines
92-114) from the point where the four GPS tags have been read, returning the
coordinate or raising. The guard
`if not (lat and lat_ref and lon and lon_ref): return None` uses Python
truthiness. -/
def piexifGpsBody (g : GpsIfd) : Except PyError (Option (ℚ × ℚ)) :=
  if !(truthyVals g.lat && truthyRef g.latRef && truthyVals g.lon && truthyRef g.lonRef) then
    pure none
  else do
    let latDd ← componentDd (g.lat.getD []) (g.latRef.getD (PyRef.str ""))
    let lonDd ← componentDd (g.lon.getD []) (g.lonRef.getD (PyRef.str ""))
    pure (some (lonDd, latDd))

/-- gps_from_piexif_ifd embeds `ImageService._extract_gps_from_piexif_bytes`
(image_service.py lines 89-117; the identical `_gps_from_piexif_bytes` is at
diagnose_gps.py lines 223-242) from the decoded GPS directory on: the
enclosing `try`/`except` turns any exception raised by the body into the
initial `gps = None`. -/
def gps_from_piexif_ifd (g : GpsIfd) : Option (ℚ × ℚ) :=
  match piexifGpsBody g with
  | Except.ok r => r
  | Except.error _ => none

theorem ratio_to_float_zero_den (n : ℚ) :
    ratio_to_float (RatVal.pair n 0) = Except.error PyError.typeError := by
  simp [ratio_to_float]

theorem except_bind_error {α β : Type} (e : PyError) (f : α → Except PyError β) :
    (Except.error e >>= f) = Except.error e := rfl

theorem except_bind_ok {α β : Type} (a : α) (f : α → Except PyError β) :
    (Except.ok a >>= f) = f a := rfl

theorem except_map_error {α β : Type} (e : PyError) (f : α → β) :
    (f <$> (Except.error e : Except PyError α)) = Except.error e := rfl

theorem except_map_ok {α β : Type} (a : α) (f : α → β) :
    (f <$> (Except.ok a : Except PyError α)) = Except.ok (f a) := rfl

theorem except_pure {α : Type} (a : α) :
    (pure a : Except PyError α) = Except.ok a := rfl

theorem piexifGpsBody_guard_true (g : GpsIfd)
    (hg : (truthyVals g.lat && truthyRef g.latRef &&
      truthyVals g.lon && truthyRef g.lonRef) = true) :
    piexifGpsBody g =
      (do
        let latDd ← componentDd (g.lat.getD []) (g.latRef.getD (PyRef.str ""))
        let lonDd ← componentDd (g.lon.getD []) (g.lonRef.getD (PyRef.str ""))
        pure (some (lonDd, latDd))) := by
  simp [piexifGpsBody, hg]

theorem piexifGpsBody_guard_false (g : GpsIfd)
    (hg : (truthyVals g.lat && truthyRef g.latRef &&
      truthyVals g.lon && truthyRef g.lonRef) = false) :
    piexifGpsBody g = pure none := by
  simp [piexifGpsBody, hg]

theorem dmsOfVals_error_of_zero_den (l : List RatVal) (n : ℚ)
    (h : RatVal.pair n 0 ∈ l.take 3) : ∃ e, dmsOfVals l = Except.error e := by
  match l with
  | [] => simp at h
  | a :: rest =>
    rcases List.mem_cons.mp h with ha | hrest
    · exact ⟨PyError.typeError,
        by simp [dmsOfVals, ← ha, ratio_to_float_zero_den, except_bind_error]⟩
    · match rest, hrest with
      | b :: rest2, hrest =>
        rcases List.mem_cons.mp hrest with hb | hrest2
        · cases hra : ratio_to_float a with
          | error e => exact ⟨e, by simp [dmsOfVals, hra, except_bind_error]⟩
          | ok d =>
            exact ⟨PyError.typeError,
              by simp [dmsOfVals, hra, ← hb, ratio_to_float_zero_den,
                except_bind_error, except_bind_ok]⟩
        · match rest2, hrest2 with
          | c :: rest3, hrest2 =>
            have hc : c = RatVal.pair n 0 := by
              simpa using (List.mem_singleton.mp (by simpa using hrest2)).symm
            cases hra : ratio_to_float a with
            | error e => exact ⟨e, by simp [dmsOfVals, hra, except_bind_error]⟩
            | ok d =>
              cases hrb : ratio_to_float b with
              | error e =>
                exact ⟨e, by simp [dmsOfVals, hra, hrb,
                  except_bind_error, except_bind_ok]⟩
              | ok m =>
                exact ⟨PyError.typeError,
                  by simp [dmsOfVals, hra, hrb, hc, ratio_to_float_zero_den,
                    except_bind_error, except_bind_ok, except_map_error]⟩

theorem componentDd_error_of_zero_den (l : List RatVal) (ref : PyRef) (n : ℚ)
    (h : RatVal.pair n 0 ∈ l.take 3) : ∃ e, componentDd l ref = Except.error e := by
  obtain ⟨e, he⟩ := dmsOfVals_error_of_zero_den l n h
  exact ⟨e, by simp [componentDd, he, except_bind_error]⟩

theorem gps_from_piexif_ifd_none_of_zero_den (g : GpsIfd) (n : ℚ)
    (h : RatVal.pair n 0 ∈ (g.lat.getD []).take 3 ∨
         RatVal.pair n 0 ∈ (g.lon.getD []).take 3) :
    gps_from_piexif_ifd g = none := by
  by_cases hg : (truthyVals g.lat && truthyRef g.latRef &&
      truthyVals g.lon && truthyRef g.lonRef) = true
  · rw [gps_from_piexif_ifd, piexifGpsBody_guard_true g hg]
    rcases h with hlat | hlon
    · obtain ⟨e, he⟩ := componentDd_error_of_zero_den (g.lat.getD [])
        (g.latRef.getD (PyRef.str "")) n hlat
      simp [he, except_bind_error]
    · obtain ⟨e, he⟩ := componentDd_error_of_zero_den (g.lon.getD [])
        (g.lonRef.getD (PyRef.str "")) n hlon
      cases hla : componentDd (g.lat.getD []) (g.latRef.getD (PyRef.str "")) with
      | error e2 => simp [hla, except_bind_error]
      | ok v => simp [hla, he, except_bind_ok, except_map_error]
  · rw [gps_from_piexif_ifd,
      piexifGpsBody_guard_false g (by simpa using hg)]
    simp [except_pure]

/-- Claim C4: a rational pair with denominator 0 makes `_ratio_to_float`
raise (the ZeroDivisionError of the division is caught, and `float(r)` on the
tuple in the `except` branch raises TypeError, which escapes the helper) —
but the fault never escapes the coordinate extraction: the enclosing
`try`/`except` of `_extract_gps_from_piexif_bytes` converts it to `None`, so
the zero-denominator value is excluded from the coordinate computation rather
than propagated as NaN or as an uncaught exception. -/
theorem ratio_zero_den_never_escapes_extraction (n : ℚ) (g : GpsIfd) :
    ratio_to_float (RatVal.pair n 0) = Except.error PyError.typeError ∧
    ((RatVal.pair n 0 ∈ (g.lat.getD []).take 3 ∨
      RatVal.pair n 0 ∈ (g.lon.getD []).take 3) →
      gps_from_piexif_ifd g = none) :=
  ⟨ratio_to_float_zero_den n, fun h => gps_from_piexif_ifd_none_of_zero_den g n h⟩

/-- Claim C4 witness: at a concrete GPS directory whose latitude triple holds
the rational 1/0, the extraction returns `none`. -/
theorem ratio_zero_den_never_escapes_extraction_witness :
    ratio_to_float (RatVal.pair 1 0) = Except.error PyError.typeError ∧
    gps_from_piexif_ifd
      { lat := some [RatVal.pair 1 0], latRef := some (PyRef.str "N"),
        lon := some [RatVal.pair 2 1], lonRef := some (PyRef.str "E") } = none := by
  have h := ratio_zero_den_never_escapes_extraction 1
    { lat := some [RatVal.pair 1 0], latRef := some (PyRef.str "N"),
      lon := some [RatVal.pair 2 1], lonRef := some (PyRef.str "E") }
  exact ⟨h.1, h.2 (Or.inl (by decide))⟩

/-- dquoteChar is the double-quote character, squoteChar the single quote. -/
def dquoteChar : Char := Char.ofNat 34

def squoteChar : Char := Char.ofNat 39

/-- pyWhitespace models the character class Python str.strip removes by
default (the common ASCII whitespace characters). -/
def pyWhitespace (c : Char) : Bool :=
  c = ' ' || c = Char.ofNat 9 || c = Char.ofNat 10 ||
  c = Char.ofNat 13 || c = Char.ofNat 11 || c = Char.ofNat 12

/-- pyStrip models Python `s.strip()`: remove leading and trailing
whitespace. -/
def pyStrip (s : String) : String :=
  String.mk (((s.toList.dropWhile pyWhitespace).reverse.dropWhile pyWhitespace).reverse)

/-- stripChar models Python `s.strip(c)` for a single character: remove all
leading and trailing occurrences of `c`. -/
def stripChar (s : String) (c : Char) : String :=
  String.mk (((s.toList.dropWhile (· = c)).reverse.dropWhile (· = c)).reverse)

/-- removeChar models Python `s.replace(c, "")` for a single-character
pattern: drop every occurrence of `c`. -/
def removeChar (s : String) (c : Char) : String :=
  String.mk (s.toList.filter (· ≠ c))

/-- mapChar models Python `s.replace(a, b)` for single characters. -/
def mapChar (s : String) (a b : Char) : String :=
  String.mk (s.toList.map (fun c => if c = a then b else c))

/-- splitChar models Python `s.split(sep)` for a single-character separator
(always at least one part; adjacent separators give empty parts). -/
def splitChar : List Char → Char → List (List Char)
  | [], _ => [[]]
  | c :: rest, sep =>
    if c = sep then [] :: splitChar rest sep
    else
      match splitChar rest sep with
      | h :: t => (c :: h) :: t
      | [] => [[c]]

def pySplit (s : String) (sep : Char) : List String :=
  (splitChar s.toList sep).map String.mk

/-- pyContains models Python `c in s` for a single character. -/
def pyContains (s : String) (c : Char) : Bool :=
  s.toList.any (· = c)

/-- pyUpper models Python `s.upper()` on the ASCII strings that reach it. -/
def pyUpper (s : String) : String :=
  String.mk (s.toList.map Char.toUpper)

/-- pyStartsWith models Python `s.startswith(p)`. -/
def pyStartsWith (s p : String) : Bool :=
  p.toList.isPrefixOf s.toList

/-- digitsVal folds decimal digit characters into a natural number. -/
def digitsVal (cs : List Char) : ℕ :=
  cs.foldl (fun a c => a * 10 + (c.toNat - 48)) 0

/-- pyFloat models the Python builtin `float` applied to a string, on the
plain fixed-point decimal literals that occur in EXIF text values: optional
surrounding whitespace, optional sign, digits with an optional decimal point
(at least one digit overall). The exponent, infinity and nan forms of the
builtin are not modelled. Returns `none` where the builtin raises
ValueError. -/
def pyFloat (s : String) : Option ℚ :=
  let cs := (pyStrip s).toList
  let neg : Bool :=
    match cs with
    | c :: _ => c = '-'
    | [] => false
  let cs2 :=
    match cs with
    | c :: rest => if c = '-' || c = '+' then rest else cs
    | [] => []
  let intPart := cs2.takeWhile Char.isDigit
  let rest := cs2.dropWhile Char.isDigit
  let val? : Option ℚ :=
    match rest with
    | [] => if intPart.isEmpty then none else some (digitsVal intPart)
    | c :: rest2 =>
      if c = '.' then
        let fracPart := rest2.takeWhile Char.isDigit
        let rest3 := rest2.dropWhile Char.isDigit
        if rest3.isEmpty && !(intPart.isEmpty && fracPart.isEmpty) then
          some ((digitsVal intPart : ℚ) + (digitsVal fracPart : ℚ) / (10 : ℚ) ^ fracPart.length)
        else none
      else none
  match val? with
  | none => none
  | some v => some (if neg then -v else v)

/-- splitFirst models Python `s.split(sep, 1)` under the guarantee that `sep`
occurs in `s`: the text before the first separator and everything after it. -/
def splitFirst (s : String) (sep : Char) : String × String :=
  let cs := s.toList
  (String.mk (cs.takeWhile (· ≠ sep)), String.mk ((cs.dropWhile (· ≠ sep)).drop 1))

/-- parse_exifread_frac embeds `ImageService._parse_exifread_frac`
(image_service.py lines 63-69): strip, split on the first `/` when present,
`float(a) / float(b or 1)` — an empty denominator text means 1, a zero
denominator raises ZeroDivisionError, unparsable text raises ValueError; with
no `/` it is plain `float(s)`. Errors propagate to the caller. -/
def parse_exifread_frac (s : String) : Except PyError ℚ :=
  let s := pyStrip s
  if pyContains s '/' then
    let ab := splitFirst s '/'
    match pyFloat ab.1 with
    | none => Except.error PyError.valueError
    | some x =>
      match (if ab.2 = "" then some 1 else pyFloat ab.2) with
      | none => Except.error PyError.valueError
      | some y =>
        if y = 0 then Except.error PyError.zeroDivision else Except.ok (x / y)
  else
    match pyFloat s with
    | none => Except.error PyError.valueError
    | some x => Except.ok x

/-- parse_exifread_dms embeds `ImageService._parse_exifread_dms`
(image_service.py lines 71-87): strip the value, remove the brackets, split
on commas, strip whitespace and quotes from each part, require at least two
parts, convert part 0 and 1 (and part 2 when present, else 0) with
`_parse_exifread_frac`; the surrounding `try`/`except` turns any raised
error into `None`. -/
def parse_exifread_dms (value : String) : Option (ℚ × ℚ × ℚ) :=
  let s := removeChar (removeChar (pyStrip value) '[') ']'
  let parts := (pySplit s ',').map
    (fun p => stripChar (stripChar (pyStrip p) dquoteChar) squoteChar)
  if parts.length < 2 then none
  else
    match (do
      let deg ← parse_exifread_frac (parts.getD 0 "")
      let minu ← parse_exifread_frac (parts.getD 1 "")
      let sec ← (if parts.length > 2 then parse_exifread_frac (parts.getD 2 "")
                 else pure 0)
      pure (deg, minu, sec) : Except PyError (ℚ × ℚ × ℚ)) with
    | Except.ok t => some t
    | Except.error _ => none

/-- ExifreadGpsTags models the four `tags.get("GPS GPS...")` lookups on the
result of `exifread.process_file`, each `None` or a tag value (carried here
as the string `str(...)` renders it to; exifread tag objects are truthy
whenever present). -/
structure ExifreadGpsTags where
  lat : Option String
  latRef : Option String
  lon : Option String
  lonRef : Option String
deriving Repr

/-- extract_gps_with_exifread embeds `ImageService._extract_gps_with_exifread`
(image_service.py lines 119-143) downstream of `exifread.process_file`:
require all four tags, parse both DMS triples, convert through `_dms_to_dd`
with the stringified references, and return `(lon_dd, lat_dd)`. -/
def extract_gps_with_exifread (t : ExifreadGpsTags) : Option (ℚ × ℚ) :=
  if !(t.lat.isSome && t.latRef.isSome && t.lon.isSome && t.lonRef.isSome) then
    none
  else
    match parse_exifread_dms (t.lat.getD ""), parse_exifread_dms (t.lon.getD "") with
    | some latT, some lonT =>
      some (dms_to_dd lonT.1 lonT.2.1 lonT.2.2 (PyRef.str (t.lonRef.getD "")),
            dms_to_dd latT.1 latT.2.1 latT.2.2 (PyRef.str (t.latRef.getD "")))
    | some _, none => none
    | none, _ => none

theorem extract_gps_with_exifread_guard_false (t : ExifreadGpsTags)
    (h : (t.lat.isSome && t.latRef.isSome && t.lon.isSome && t.lonRef.isSome) = false) :
    extract_gps_with_exifread t = none := by
  simp [extract_gps_with_exifread, h]

theorem gps_from_piexif_ifd_some (g : GpsIfd) (p : ℚ × ℚ)
    (h : gps_from_piexif_ifd g = some p) :
    (truthyVals g.lat && truthyRef g.latRef &&
      truthyVals g.lon && truthyRef g.lonRef) = true ∧
    ∃ latDd lonDd,
      componentDd (g.lat.getD []) (g.latRef.getD (PyRef.str "")) = Except.ok latDd ∧
      componentDd (g.lon.getD []) (g.lonRef.getD (PyRef.str "")) = Except.ok lonDd ∧
      p = (lonDd, latDd) := by
  by_cases hg : (truthyVals g.lat && truthyRef g.latRef &&
      truthyVals g.lon && truthyRef g.lonRef) = true
  · refine ⟨hg, ?_⟩
    rw [gps_from_piexif_ifd, piexifGpsBody_guard_true g hg] at h
    cases hla : componentDd (g.lat.getD []) (g.latRef.getD (PyRef.str "")) with
    | error e => rw [hla] at h; simp [except_bind_error] at h
    | ok latDd =>
      cases hlo : componentDd (g.lon.getD []) (g.lonRef.getD (PyRef.str "")) with
      | error e =>
        rw [hla, hlo] at h
        simp [except_bind_ok, except_map_error] at h
      | ok lonDd =>
        rw [hla, hlo] at h
        simp [except_bind_ok, except_map_ok, except_pure] at h
        exact ⟨latDd, lonDd, rfl, rfl, h.symm⟩
  · rw [gps_from_piexif_ifd,
      piexifGpsBody_guard_false g (by simpa using hg)] at h
    simp [except_pure] at h

theorem extract_gps_with_exifread_some (t : ExifreadGpsTags) (p : ℚ × ℚ)
    (h : extract_gps_with_exifread t = some p) :
    (t.lat.isSome && t.latRef.isSome && t.lon.isSome && t.lonRef.isSome) = true ∧
    ∃ latT lonT,
      parse_exifread_dms (t.lat.getD "") = some latT ∧
      parse_exifread_dms (t.lon.getD "") = some lonT ∧
      p = (dms_to_dd lonT.1 lonT.2.1 lonT.2.2 (PyRef.str (t.lonRef.getD "")),
           dms_to_dd latT.1 latT.2.1 latT.2.2 (PyRef.str (t.latRef.getD ""))) := by
  by_cases hg : (t.lat.isSome && t.latRef.isSome &&
      t.lon.isSome && t.lonRef.isSome) = true
  · refine ⟨hg, ?_⟩
    rw [extract_gps_with_exifread] at h
    simp only [hg, Bool.not_true, Bool.false_eq_true, if_false] at h
    cases hla : parse_exifread_dms (t.lat.getD "") with
    | none => rw [hla] at h; simp at h
    | some latT =>
      cases hlo : parse_exifread_dms (t.lon.getD "") with
      | none => rw [hla, hlo] at h; simp at h
      | some lonT =>
        rw [hla, hlo] at h
        simp at h
        exact ⟨latT, lonT, rfl, rfl, h.symm⟩
  · rw [extract_gps_with_exifread_guard_false t (by simpa using hg)] at h
    simp at h

/-- Claim C5: both GPS resolvers of image_service.py return a coordinate only
when all four of latitude values, latitude reference, longitude values and
longitude reference are present (Python-truthy); when any is missing the
result is `None`, never a partial coordinate; and every returned pair is
ordered (longitude, latitude): the first component is computed from the
longitude fields, the second from the latitude fields. -/
theorem gps_resolvers_require_all_four_and_order (g : GpsIfd) (t : ExifreadGpsTags) :
    ((truthyVals g.lat && truthyRef g.latRef &&
       truthyVals g.lon && truthyRef g.lonRef) = false →
      gps_from_piexif_ifd g = none) ∧
    (∀ p, gps_from_piexif_ifd g = some p →
      (truthyVals g.lat && truthyRef g.latRef &&
        truthyVals g.lon && truthyRef g.lonRef) = true ∧
      ∃ latDd lonDd,
        componentDd (g.lat.getD []) (g.latRef.getD (PyRef.str "")) = Except.ok latDd ∧
        componentDd (g.lon.getD []) (g.lonRef.getD (PyRef.str "")) = Except.ok lonDd ∧
        p = (lonDd, latDd)) ∧
    ((t.lat.isSome && t.latRef.isSome && t.lon.isSome && t.lonRef.isSome) = false →
      extract_gps_with_exifread t = none) ∧
    (∀ p, extract_gps_with_exifread t = some p →
      (t.lat.isSome && t.latRef.isSome && t.lon.isSome && t.lonRef.isSome) = true ∧
      ∃ latT lonT,
        parse_exifread_dms (t.lat.getD "") = some latT ∧
        parse_exifread_dms (t.lon.getD "") = some lonT ∧
        p = (dms_to_dd lonT.1 lonT.2.1 lonT.2.2 (PyRef.str (t.lonRef.getD "")),
             dms_to_dd latT.1 latT.2.1 latT.2.2 (PyRef.str (t.latRef.getD "")))) := by
  refine ⟨?_, ?_, ?_, ?_⟩
  · intro hg
    rw [gps_from_piexif_ifd, piexifGpsBody_guard_false g hg]
    simp [except_pure]
  · exact fun p => gps_from_piexif_ifd_some g p
  · exact extract_gps_with_exifread_guard_false t
  · exact fun p => extract_gps_with_exifread_some t p

/-- Claim C5 witness: with the longitude reference missing, the piexif
resolver yields `None`; with all four tags present, the exifread resolver
yields a (longitude, latitude) pair built from the longitude and latitude
fields respectively. -/
theorem gps_resolvers_require_all_four_and_order_witness :
    gps_from_piexif_ifd
      { lat := some [RatVal.pair 40 1], latRef := some (PyRef.str "N"),
        lon := some [RatVal.pair 79 1], lonRef := none } = none ∧
    extract_gps_with_exifread
      { lat := some "[40, 26, 46]", latRef := some "N",
        lon := some "[79, 58, 56]", lonRef := some "W" } =
      some (dms_to_dd 79 58 56 (PyRef.str "W"), dms_to_dd 40 26 46 (PyRef.str "N")) := by
  have h1 := (gps_resolvers_require_all_four_and_order
    { lat := some [RatVal.pair 40 1], latRef := some (PyRef.str "N"),
      lon := some [RatVal.pair 79 1], lonRef := none }
    { lat := some "[40, 26, 46]", latRef := some "N",
      lon := some "[79, 58, 56]", lonRef := some "W" }).1
  refine ⟨h1 (by decide), ?_⟩
  have hla : parse_exifread_dms "[40, 26, 46]" = some (40, 26, 46) := by decide
  have hlo : parse_exifread_dms "[79, 58, 56]" = some (79, 58, 56) := by decide
  simp [extract_gps_with_exifread, hla, hlo]

/-- SourceImage models a decoded image after `img.convert("RGB")`: its pixel
dimensions, the optional EXIF block fetched from the original bytes to
preserve (absent when the image carries none), and the JPEG encoder
`img.save(out, format="JPEG", quality=q, optimize=True, progressive=True,
exif=exif_preserve)` as a function from the quality setting to the encoded
bytes (deterministic for a fixed image and metadata block: each encode is
independent and stateless). Pillow itself is an external library; only its
observable encode output enters the embedding. -/
structure SourceImage where
  width : ℕ
  height : ℕ
  exif : Option (List ℕ)
  encode : ℕ → List ℕ

/-- qualityLoop embeds the while loop of
`ImageService.compress_to_target_jpeg` (image_service.py lines 250-254):
`while len(b) > target_bytes and quality > 10:` reassigns
`quality = max(10, quality - step)` with `step = 6` and re-encodes. Returns
the final bytes and the final quality. -/
def qualityLoop (enc : ℕ → List ℕ) (target : ℕ) (q : ℕ) (b : List ℕ) :
    List ℕ × ℕ :=
  if b.length > target ∧ q > 10 then
    qualityLoop enc target (max 10 (q - 6)) (enc (max 10 (q - 6)))
  else (b, q)
termination_by q
decreasing_by omega

/-- qualityLoopCount counts the iterations the while loop of
`compress_to_target_jpeg` performs from a given state (a ghost observer of
`qualityLoop`, same recursion structure). -/
def qualityLoopCount (enc : ℕ → List ℕ) (target : ℕ) (q : ℕ) (b : List ℕ) : ℕ :=
  if b.length > target ∧ q > 10 then
    qualityLoopCount enc target (max 10 (q - 6)) (enc (max 10 (q - 6))) + 1
  else 0
termination_by q
decreasing_by omega

/-- compress_to_target_jpeg embeds `ImageService.compress_to_target_jpeg`
(image_service.py lines 227-257; identical copy at diagnose_gps.py lines
342-372): `Image.open` on undecodable bytes is the one fatal failure
(UnidentifiedImageError, a ValueError subclass); on success the image is
converted to RGB (dimensions unchanged), the EXIF block to preserve is
fetched under a `try` that cannot fail the call, the image is encoded at
quality 92, the quality-reduction loop runs, and the call returns
`(bytes, width, height, "image/jpeg")`. Decoding is the external Pillow
library, passed as the `decode` oracle. -/
def compress_to_target_jpeg (decode : List ℕ → Option SourceImage)
    (data : List ℕ) (target : ℕ) : Except PyError (List ℕ × ℕ × ℕ × String) :=
  match decode data with
  | none => Except.error PyError.valueError
  | some img =>
    let r := qualityLoop img.encode target 92 (img.encode 92)
    Except.ok (r.1, img.width, img.height, "image/jpeg")

theorem qualityLoop_step (enc : ℕ → List ℕ) (target q : ℕ) (b : List ℕ)
    (h : b.length > target ∧ q > 10) :
    qualityLoop enc target q b =
      qualityLoop enc target (max 10 (q - 6)) (enc (max 10 (q - 6))) := by
  rw [qualityLoop]
  simp [h]

theorem qualityLoop_exit (enc : ℕ → List ℕ) (target q : ℕ) (b : List ℕ)
    (h : ¬(b.length > target ∧ q > 10)) :
    qualityLoop enc target q b = (b, q) := by
  rw [qualityLoop]
  simp [h]

theorem qualityLoopCount_le (enc : ℕ → List ℕ) (target : ℕ) :
    ∀ q b, qualityLoopCount enc target q b ≤ (q - 5) / 6 := by
  intro q
  induction q using Nat.strong_induction_on with
  | _ q ih =>
    intro b
    rw [qualityLoopCount]
    by_cases h : b.length > target ∧ q > 10
    · simp only [h, and_self, if_true]
      have hlt : max 10 (q - 6) < q := by omega
      have := ih (max 10 (q - 6)) hlt (enc (max 10 (q - 6)))
      omega
    · simp [h]

theorem qualityLoop_invariant (enc : ℕ → List ℕ) (target : ℕ) :
    ∀ q, 10 ≤ q →
    (qualityLoop enc target q (enc q)).1 = enc (qualityLoop enc target q (enc q)).2 ∧
    10 ≤ (qualityLoop enc target q (enc q)).2 ∧
    ((qualityLoop enc target q (enc q)).1.length ≤ target ∨
      (qualityLoop enc target q (enc q)).2 = 10) := by
  intro q
  induction q using Nat.strong_induction_on with
  | _ q ih =>
    intro hq
    by_cases h : (enc q).length > target ∧ q > 10
    · rw [qualityLoop_step enc target q (enc q) h]
      have hlt : max 10 (q - 6) < q := by omega
      exact ih (max 10 (q - 6)) hlt (by omega)
    · rw [qualityLoop_exit enc target q (enc q) h]
      refine ⟨rfl, hq, ?_⟩
      dsimp only
      omega

/-- Claim C2: for every decodable input image and every positive target byte
budget, the quality-reduction loop of `compress_to_target_jpeg` starts at
quality 92, decreases quality by 6 per iteration clamped at the floor of 10
(so encoding is still attempted at the floor instead of failing), and the
while loop performs at most (92 - 10)/6 + 1 = 14 iterations. -/
theorem compress_quality_loop_bounds (decode : List ℕ → Option SourceImage)
    (data : List ℕ) (target : ℕ) (img : SourceImage)
    (hdec : decode data = some img) (hpos : 0 < target) :
    compress_to_target_jpeg decode data target =
      Except.ok ((qualityLoop img.encode target 92 (img.encode 92)).1,
        img.width, img.height, "image/jpeg") ∧
    (∀ q b, b.length > target ∧ q > 10 →
      qualityLoop img.encode target q b =
        qualityLoop img.encode target (max 10 (q - 6)) (img.encode (max 10 (q - 6)))) ∧
    10 ≤ (qualityLoop img.encode target 92 (img.encode 92)).2 ∧
    qualityLoopCount img.encode target 92 (img.encode 92) ≤ 14 := by
  refine ⟨?_, ?_, ?_, ?_⟩
  · simp [compress_to_target_jpeg, hdec]
  · exact fun q b h => qualityLoop_step img.encode target q b h
  · exact (qualityLoop_invariant img.encode target 92 (by norm_num)).2.1
  · have := qualityLoopCount_le img.encode target 92 (img.encode 92)
    omega

/-- Claim C2 witness: the theorem applied to a concrete decoder whose encoder
returns empty byte lists, with target 1. -/
theorem compress_quality_loop_bounds_witness :
    compress_to_target_jpeg (fun _ => some ⟨2, 3, none, fun _ => []⟩) [] 1 =
      Except.ok ((qualityLoop (SourceImage.mk 2 3 none (fun _ => [])).encode 1 92
        ((SourceImage.mk 2 3 none (fun _ => [])).encode 92)).1, 2, 3, "image/jpeg") ∧
    (∀ q b, b.length > 1 ∧ q > 10 →
      qualityLoop (SourceImage.mk 2 3 none (fun _ => [])).encode 1 q b =
        qualityLoop (SourceImage.mk 2 3 none (fun _ => [])).encode 1
          (max 10 (q - 6)) ((SourceImage.mk 2 3 none (fun _ => [])).encode (max 10 (q - 6)))) ∧
    10 ≤ (qualityLoop (SourceImage.mk 2 3 none (fun _ => [])).encode 1 92
      ((SourceImage.mk 2 3 none (fun _ => [])).encode 92)).2 ∧
    qualityLoopCount (SourceImage.mk 2 3 none (fun _ => [])).encode 1 92
      ((SourceImage.mk 2 3 none (fun _ => [])).encode 92) ≤ 14 :=
  compress_quality_loop_bounds (fun _ => some ⟨2, 3, none, fun _ => []⟩) [] 1
    ⟨2, 3, none, fun _ => []⟩ rfl (by norm_num)

/-- Claim C6: when the initial encode at quality 92 exceeds the budget,
`compress_to_target_jpeg` returns either bytes of length at most the target,
or the bytes encoded at the quality floor 10; in both cases the returned
width and height are the source image's dimensions and the mime type is
"image/jpeg". -/
theorem compress_within_budget_or_floor (decode : List ℕ → Option SourceImage)
    (data : List ℕ) (target : ℕ) (img : SourceImage)
    (hdec : decode data = some img)
    (hover : (img.encode 92).length > target) :
    ∃ b, compress_to_target_jpeg decode data target =
        Except.ok (b, img.width, img.height, "image/jpeg") ∧
      (b.length ≤ target ∨ b = img.encode 10) := by
  obtain ⟨h1, h2, h3⟩ := qualityLoop_invariant img.encode target 92 (by norm_num)
  refine ⟨(qualityLoop img.encode target 92 (img.encode 92)).1, ?_, ?_⟩
  · simp [compress_to_target_jpeg, hdec]
  · rcases h3 with h | h
    · exact Or.inl h
    · exact Or.inr (by rw [h1, h])

/-- Claim C6 witness: a concrete image whose encoder always produces two
bytes, with target 1: the initial encode exceeds the budget and the theorem
applies. -/
theorem compress_within_budget_or_floor_witness :
    ∃ b, compress_to_target_jpeg (fun _ => some ⟨4, 5, none, fun _ => [0, 0]⟩) [] 1 =
        Except.ok (b, 4, 5, "image/jpeg") ∧
      (b.length ≤ 1 ∨ b = [0, 0]) :=
  compress_within_budget_or_floor (fun _ => some ⟨4, 5, none, fun _ => [0, 0]⟩)
    [] 1 ⟨4, 5, none, fun _ => [0, 0]⟩ rfl (by norm_num)

/-- Claim C7: `compress_to_target_jpeg` fails exactly when the input bytes
cannot be decoded as an image at all, and for every input that does decode —
including images whose `exif` field is `none`, i.e. no embedded metadata
block to preserve — it completes and returns a CompressionResult tuple. -/
theorem compress_fails_only_on_undecodable (decode : List ℕ → Option SourceImage)
    (data : List ℕ) (target : ℕ) :
    ((∃ e, compress_to_target_jpeg decode data target = Except.error e) ↔
      decode data = none) ∧
    (∀ img, decode data = some img →
      compress_to_target_jpeg decode data target =
        Except.ok ((qualityLoop img.encode target 92 (img.encode 92)).1,
          img.width, img.height, "image/jpeg")) := by
  constructor
  · constructor
    · rintro ⟨e, he⟩
      cases hd : decode data with
      | none => rfl
      | some img =>
        rw [show compress_to_target_jpeg decode data target =
          Except.ok ((qualityLoop img.encode target 92 (img.encode 92)).1,
            img.width, img.height, "image/jpeg") from by
          simp [compress_to_target_jpeg, hd]] at he
        exact absurd he (by simp)
    · intro hd
      exact ⟨PyError.valueError, by simp [compress_to_target_jpeg, hd]⟩
  · intro img hd
    simp [compress_to_target_jpeg, hd]

/-- Claim C7 witness: a concrete decodable input with no EXIF block completes
with a full result. -/
theorem compress_fails_only_on_undecodable_witness :
    compress_to_target_jpeg (fun _ => some ⟨2, 3, none, fun _ => []⟩) [] 1 =
      Except.ok ([], 2, 3, "image/jpeg") := by
  have h := (compress_fails_only_on_undecodable
    (fun _ => some ⟨2, 3, none, fun _ => []⟩) [] 1).2 ⟨2, 3, none, fun _ => []⟩ rfl
  rw [h]
  rw [qualityLoop_exit _ _ _ _ (by simp)]

/-- Timestamp models the datetime value produced by
`datetime.strptime(raw[:19], "%Y:%m:%d %H:%M:%S").replace(tzinfo=timezone.utc)`
(always stamped UTC by the code). -/
structure Timestamp where
  year : ℕ
  month : ℕ
  day : ℕ
  hour : ℕ
  minute : ℕ
  second : ℕ
deriving DecidableEq, Repr

/-- parseTimestamp19 models `datetime.strptime(raw[:19], "%Y:%m:%d %H:%M:%S")`
from the Python standard library (external to the repository) on the
canonical fixed-width EXIF layout: exactly the first 19 characters, shaped
`dddd:dd:dd dd:dd:dd`, with basic range validation (month 1-12, day 1-31,
hour 0-23, minute/second 0-59). CPython additionally accepts narrower digit
fields and validates the day against the month length; those cases are
outside this model. Returns `none` where strptime raises ValueError. -/
def parseTimestamp19 (s : String) : Option Timestamp :=
  match s.toList.take 19 with
  | [y1, y2, y3, y4, c1, mo1, mo2, c2, d1, d2, sp, h1, h2, c3, mi1, mi2, c4, s1, s2] =>
    if y1.isDigit && y2.isDigit && y3.isDigit && y4.isDigit && (c1 = ':') &&
       mo1.isDigit && mo2.isDigit && (c2 = ':') && d1.isDigit && d2.isDigit &&
       (sp = ' ') && h1.isDigit && h2.isDigit && (c3 = ':') &&
       mi1.isDigit && mi2.isDigit && (c4 = ':') && s1.isDigit && s2.isDigit then
      let y := digitsVal [y1, y2, y3, y4]
      let mo := digitsVal [mo1, mo2]
      let d := digitsVal [d1, d2]
      let h := digitsVal [h1, h2]
      let mi := digitsVal [mi1, mi2]
      let se := digitsVal [s1, s2]
      if 1 ≤ mo && mo ≤ 12 && 1 ≤ d && d ≤ 31 && h ≤ 23 && mi ≤ 59 && se ≤ 59 then
        some ⟨y, mo, d, h, mi, se⟩
      else none
    else none
  | _ => none

/-- pyOrStr models the Python `a or b` idiom on optional strings: `None` and
the empty string are falsy and fall through to `b`. -/
def pyOrStr (a b : Option String) : Option String :=
  match a with
  | some s => if s = "" then b else some s
  | none => b

/-- truthyStr is Python truthiness of an optional string. -/
def truthyStr : Option String → Bool
  | none => false
  | some s => !(s = "")

/-- PiexifDateDicts models the tag lookups `extract_captured_at` performs on
a successful `piexif.load`: the Exif directory's DateTimeOriginal and
DateTimeDigitized, and the primary ("0th") directory's DateTime. Values are
carried as decoded strings (the code decodes bytes values with
`errors="ignore"` before slicing). -/
structure PiexifDateDicts where
  dtOriginal : Option String
  dtDigitized : Option String
  dtPrimary : Option String
deriving Repr

/-- ExifreadDateTags models the fallback lookups on exifread's output:
`tags.get("EXIF DateTimeOriginal")` and `tags.get("Image DateTime")`,
stringified. -/
structure ExifreadDateTags where
  dtOriginal : Option String
  imageDt : Option String
deriving Repr

/-- CaptureInput models the sources `extract_captured_at` consults.
For `exifLoaded`: outer `none` = `img.info.get("exif")` absent or falsy;
`some none` = `piexif.load` raised (caught); `some (some d)` = loaded.
For `erTags`: outer `none` = no original bytes supplied (or falsy);
`some none` = `exifread.process_file` raised (caught); `some (some t)` =
processed. -/
structure CaptureInput where
  exifLoaded : Option (Option PiexifDateDicts)
  erTags : Option (Option ExifreadDateTags)
deriving Repr

/-- captureStage1 embeds the piexif stage of `ImageService.extract_captured_at`
(image_service.py lines 193-208): `raw = exif_ifd.get(DateTimeOriginal) or
exif_ifd.get(DateTimeDigitized)`, falling back to the 0th directory's
DateTime when falsy, then `strptime(raw[:19], ...)` when the final value is
truthy; a parse error is caught by the enclosing `try` and the stage yields
nothing. -/
def captureStage1 (x : Option (Option PiexifDateDicts)) : Option Timestamp :=
  match x with
  | some (some d) =>
    let raw0 := pyOrStr d.dtOriginal d.dtDigitized
    let raw := if truthyStr raw0 then raw0 else d.dtPrimary
    match raw with
    | some r => if r = "" then none else parseTimestamp19 r
    | none => none
  | _ => none

/-- captureStage2 embeds the exifread fallback of `extract_captured_at`
(image_service.py lines 211-220): `raw = tags.get("EXIF DateTimeOriginal") or
tags.get("Image DateTime")`, parsed the same way; errors caught. -/
def captureStage2 (x : Option (Option ExifreadDateTags)) : Option Timestamp :=
  match x with
  | some (some t) =>
    let raw := pyOrStr t.dtOriginal t.imageDt
    match raw with
    | some r => if r = "" then none else parseTimestamp19 r
    | none => none
  | _ => none

/-- extract_captured_at embeds `ImageService.extract_captured_at`
(image_service.py lines 188-222; identical copy at diagnose_gps.py lines
304-337): the piexif stage first, the exifread fallback when it yields
nothing, `None` when both fail. -/
def extract_captured_at (inp : CaptureInput) : Option Timestamp :=
  match captureStage1 inp.exifLoaded with
  | some t => some t
  | none => captureStage2 inp.erTags

theorem captureStage1_dtOriginal (d : PiexifDateDicts)
    (h : truthyStr d.dtOriginal = true) :
    captureStage1 (some (some d)) = parseTimestamp19 (d.dtOriginal.getD "") := by
  cases hd : d.dtOriginal with
  | none => rw [hd] at h; simp [truthyStr] at h
  | some r =>
    rw [hd] at h
    simp only [truthyStr, Bool.not_eq_true', decide_eq_false_iff_not] at h
    simp [captureStage1, pyOrStr, hd, truthyStr, h]

theorem captureStage1_dtDigitized (d : PiexifDateDicts)
    (h0 : truthyStr d.dtOriginal = false) (h1 : truthyStr d.dtDigitized = true) :
    captureStage1 (some (some d)) = parseTimestamp19 (d.dtDigitized.getD "") := by
  cases hd : d.dtDigitized with
  | none => rw [hd] at h1; simp [truthyStr] at h1
  | some r =>
    rw [hd] at h1
    simp only [truthyStr, Bool.not_eq_true', decide_eq_false_iff_not] at h1
    cases h0' : d.dtOriginal with
    | none => simp [captureStage1, pyOrStr, hd, h0', truthyStr, h1]
    | some r0 =>
      rw [h0'] at h0
      simp only [truthyStr, Bool.not_eq_false', decide_eq_true_eq] at h0
      simp [captureStage1, pyOrStr, hd, h0', h0, truthyStr, h1]

theorem captureStage1_dtPrimary (d : PiexifDateDicts)
    (h0 : truthyStr d.dtOriginal = false) (h1 : truthyStr d.dtDigitized = false)
    (h2 : truthyStr d.dtPrimary = true) :
    captureStage1 (some (some d)) = parseTimestamp19 (d.dtPrimary.getD "") := by
  cases hd : d.dtPrimary with
  | none => rw [hd] at h2; simp [truthyStr] at h2
  | some r =>
    rw [hd] at h2
    simp only [truthyStr, Bool.not_eq_true', decide_eq_false_iff_not] at h2
    have hor : pyOrStr d.dtOriginal d.dtDigitized = none ∨
        pyOrStr d.dtOriginal d.dtDigitized = some "" := by
      cases ha : d.dtOriginal with
      | none =>
        cases hb : d.dtDigitized with
        | none => exact Or.inl (by simp [pyOrStr])
        | some rb =>
          rw [hb] at h1
          simp only [truthyStr, Bool.not_eq_false', decide_eq_true_eq] at h1
          exact Or.inr (by simp [pyOrStr, h1])
      | some ra =>
        rw [ha] at h0
        simp only [truthyStr, Bool.not_eq_false', decide_eq_true_eq] at h0
        cases hb : d.dtDigitized with
        | none => exact Or.inl (by simp [pyOrStr, h0])
        | some rb =>
          rw [hb] at h1
          simp only [truthyStr, Bool.not_eq_false', decide_eq_true_eq] at h1
          exact Or.inr (by simp [pyOrStr, h0, h1])
    rcases hor with hor | hor
    · simp [captureStage1, hor, hd, truthyStr, h2]
    · simp [captureStage1, hor, hd, truthyStr, h2]

theorem captureStage1_none_of_all_falsy (d : PiexifDateDicts)
    (h0 : truthyStr d.dtOriginal = false) (h1 : truthyStr d.dtDigitized = false)
    (h2 : truthyStr d.dtPrimary = false) :
    captureStage1 (some (some d)) = none := by
  have hor : pyOrStr d.dtOriginal d.dtDigitized = none ∨
      pyOrStr d.dtOriginal d.dtDigitized = some "" := by
    cases ha : d.dtOriginal with
    | none =>
      cases hb : d.dtDigitized with
      | none => exact Or.inl (by simp [pyOrStr])
      | some rb =>
        rw [hb] at h1
        simp only [truthyStr, Bool.not_eq_false', decide_eq_true_eq] at h1
        exact Or.inr (by simp [pyOrStr, h1])
    | some ra =>
      rw [ha] at h0
      simp only [truthyStr, Bool.not_eq_false', decide_eq_true_eq] at h0
      cases hb : d.dtDigitized with
      | none => exact Or.inl (by simp [pyOrStr, h0])
      | some rb =>
        rw [hb] at h1
        simp only [truthyStr, Bool.not_eq_false', decide_eq_true_eq] at h1
        exact Or.inr (by simp [pyOrStr, h0, h1])
  cases hp : d.dtPrimary with
  | none => rcases hor with hor | hor <;> simp [captureStage1, hor, hp, truthyStr]
  | some rp =>
    rw [hp] at h2
    simp only [truthyStr, Bool.not_eq_false', decide_eq_true_eq] at h2
    rcases hor with hor | hor <;> simp [captureStage1, hor, hp, h2, truthyStr]

/-- Claim C8: `extract_captured_at` consults sources in the priority order
DateTimeOriginal, then DateTimeDigitized, then the primary directory's
DateTime, then the exifread text fallback; parsing acts only on the first 19
characters of the raw value against the fixed pattern `YYYY:MM:DD HH:MM:SS`;
and a malformed (unparsable) value yields `None` rather than a parse abort
(when the fallback source also yields nothing). -/
theorem capture_priority_and_truncation (inp : CaptureInput)
    (d : PiexifDateDicts) (s t : String) :
    (s.toList.take 19 = t.toList.take 19 →
      parseTimestamp19 s = parseTimestamp19 t) ∧
    (truthyStr d.dtOriginal = true →
      captureStage1 (some (some d)) = parseTimestamp19 (d.dtOriginal.getD "")) ∧
    (truthyStr d.dtOriginal = false → truthyStr d.dtDigitized = true →
      captureStage1 (some (some d)) = parseTimestamp19 (d.dtDigitized.getD "")) ∧
    (truthyStr d.dtOriginal = false → truthyStr d.dtDigitized = false →
      truthyStr d.dtPrimary = true →
      captureStage1 (some (some d)) = parseTimestamp19 (d.dtPrimary.getD "")) ∧
    (truthyStr d.dtOriginal = false → truthyStr d.dtDigitized = false →
      truthyStr d.dtPrimary = false → captureStage1 (some (some d)) = none) ∧
    (∀ ts, captureStage1 inp.exifLoaded = some ts →
      extract_captured_at inp = some ts) ∧
    (captureStage1 inp.exifLoaded = none →
      extract_captured_at inp = captureStage2 inp.erTags) ∧
    (captureStage1 inp.exifLoaded = none → captureStage2 inp.erTags = none →
      extract_captured_at inp = none) := by
  refine ⟨?_, captureStage1_dtOriginal d, captureStage1_dtDigitized d,
    captureStage1_dtPrimary d, captureStage1_none_of_all_falsy d, ?_, ?_, ?_⟩
  · intro h
    rw [parseTimestamp19, parseTimestamp19, h]
  · intro ts h
    simp [extract_captured_at, h]
  · intro h
    simp [extract_captured_at, h]
  · intro h1 h2
    simp [extract_captured_at, h1, h2]

/-- Claim C8 witness: a DateTimeOriginal value with a sub-second suffix
(22 characters) parses through its first 19 characters and wins over the
other sources; with no piexif source at all and no fallback bytes the result
is `None`. -/
theorem capture_priority_and_truncation_witness :
    captureStage1 (some (some ⟨some "2021:05:06 07:08:09.12", some "1999:01:01 00:00:00", some "1998:01:01 00:00:00"⟩)) =
      parseTimestamp19 "2021:05:06 07:08:09.12" ∧
    extract_captured_at ⟨none, none⟩ = none := by
  have h := capture_priority_and_truncation ⟨none, none⟩
    ⟨some "2021:05:06 07:08:09.12", some "1999:01:01 00:00:00", some "1998:01:01 00:00:00"⟩
    "2021:05:06 07:08:09.12" "2021:05:06 07:08:09"
  exact ⟨h.2.1 (by decide), h.2.2.2.2.2.2.2 (by decide) (by decide)⟩

/-- dictSet models Python dict assignment `meta[k] = v` on an
insertion-ordered association list: replace the value in place when the key
exists, append otherwise. -/
def dictSet (m : List (String × String)) (k v : String) : List (String × String) :=
  if m.any (fun p => p.1 = k) then
    m.map (fun p => if p.1 = k then (k, v) else p)
  else m ++ [(k, v)]

/-- dictGet models Python `meta.get(k)`. -/
def dictGet (m : List (String × String)) (k : String) : Option String :=
  (m.find? (fun p => p.1 = k)).map (fun p => p.2)

/-- PiexifLoaded models the result of `piexif.load` consumed by
`extract_exif`: the (tag number, stringified value) pairs of the four
directories the code iterates, in order "0th", "Exif", "GPS", "1st". -/
structure PiexifLoaded where
  ifd0 : List (ℕ × String)
  exifD : List (ℕ × String)
  gps : List (ℕ × String)
  ifd1 : List (ℕ × String)
deriving Repr

/-- piexifKey builds the key the preferred pass writes, the f-string
`f"{ifd}.{name}"` of image_service.py line 31, with the name resolved through
the external piexif.TAGS table (`pName` oracle; `str(tag)` fallback folded
into it). -/
def piexifKey (pName : String → ℕ → String) (ifd : String) (tag : ℕ) : String :=
  String.mk (ifd.toList ++ '.' :: (pName ifd tag).toList)

/-- addIfdTags embeds the inner loop of the preferred pass of `extract_exif`
(image_service.py lines 25-31): one `meta[f"{ifd}.{name}"] = str(val)`
assignment per tag of the directory. -/
def addIfdTags (pName : String → ℕ → String) (ifd : String)
    (tags : List (ℕ × String)) (m : List (String × String)) :
    List (String × String) :=
  tags.foldl (fun m kv => dictSet m (piexifKey pName ifd kv.1) kv.2) m

/-- extract_exif embeds `ImageService.extract_exif` (image_service.py lines
14-44; near-identical copy at diagnose_gps.py lines 29-60): the preferred
piexif pass writes `f"{ifd}.{name}"` keys over the four directories in
order, then the secondary Pillow pass writes `ExifTags.TAGS.get(k, str(k))`
keys (the `gName` oracle, an external Pillow table with `str(k)` fallback)
for the items of `img.getexif()`. `exifLoaded = none` covers absent/falsy
exif bytes or a raising `piexif.load`; `pillowItems = none` covers a raising
`img.getexif()` — both caught, leaving `meta` as accumulated so far. -/
def extract_exif (pName : String → ℕ → String) (gName : ℕ → String)
    (exifLoaded : Option PiexifLoaded)
    (pillowItems : Option (List (ℕ × String))) : List (String × String) :=
  let meta : List (String × String) := []
  let meta :=
    match exifLoaded with
    | none => meta
    | some d =>
      addIfdTags pName "1st" d.ifd1
        (addIfdTags pName "GPS" d.gps
          (addIfdTags pName "Exif" d.exifD
            (addIfdTags pName "0th" d.ifd0 meta)))
  match pillowItems with
  | none => meta
  | some items => items.foldl (fun m kv => dictSet m (gName kv.1) kv.2) meta

theorem find_replace_ne (rest : List (String × String)) (k v key : String)
    (h : k ≠ key) :
    List.find? (fun p => decide (p.1 = key))
        (rest.map (fun p => if p.1 = k then (k, v) else p)) =
      List.find? (fun p => decide (p.1 = key)) rest := by
  induction rest with
  | nil => rfl
  | cons p rest ih =>
    by_cases hp : p.1 = k
    · have hpk : p.1 ≠ key := by rw [hp]; exact h
      simp [List.find?_cons, hp, decide_eq_false h, decide_eq_false hpk, ih]
    · simp only [List.map_cons, List.find?_cons, if_neg hp]
      by_cases hpk : p.1 = key
      · simp [hpk]
      · simp only [decide_eq_false hpk, Bool.false_eq_true]
        exact ih

theorem find_append_ne (rest : List (String × String)) (k v key : String)
    (h : k ≠ key) :
    List.find? (fun p => decide (p.1 = key)) (rest ++ [(k, v)]) =
      List.find? (fun p => decide (p.1 = key)) rest := by
  induction rest with
  | nil => simp [List.find?, decide_eq_false h]
  | cons p rest ih =>
    simp only [List.cons_append, List.find?_cons]
    by_cases hpk : p.1 = key
    · simp [hpk]
    · simp only [decide_eq_false hpk, Bool.false_eq_true]
      exact ih

theorem dictGet_dictSet_ne (m : List (String × String)) (k v key : String)
    (h : k ≠ key) : dictGet (dictSet m k v) key = dictGet m key := by
  unfold dictSet dictGet
  by_cases hm : m.any (fun p => p.1 = k)
  · simp only [hm, if_true]
    rw [find_replace_ne m k v key h]
  · simp only [hm, Bool.false_eq_true, if_false]
    rw [find_append_ne m k v key h]

theorem dictGet_dictSet_isSome (m : List (String × String)) (k v key : String)
    (h : (dictGet (dictSet m k v) key).isSome = true) :
    key = k ∨ (dictGet m key).isSome = true := by
  by_cases hk : key = k
  · exact Or.inl hk
  · right
    rw [dictGet_dictSet_ne m k v key (fun he => hk he.symm)] at h
    exact h

theorem piexifKey_contains_dot (pName : String → ℕ → String) (ifd : String)
    (tag : ℕ) : pyContains (piexifKey pName ifd tag) '.' = true := by
  simp [pyContains, piexifKey, List.any_append]

theorem addIfdTags_keys_dot (pName : String → ℕ → String) (ifd : String)
    (tags : List (ℕ × String)) :
    ∀ m, (∀ key, (dictGet m key).isSome = true → pyContains key '.' = true) →
    ∀ key, (dictGet (addIfdTags pName ifd tags m) key).isSome = true →
      pyContains key '.' = true := by
  induction tags with
  | nil => exact fun m hm key h => hm key h
  | cons kv rest ih =>
    intro m hm key h
    have hstep : addIfdTags pName ifd (kv :: rest) m =
        addIfdTags pName ifd rest (dictSet m (piexifKey pName ifd kv.1) kv.2) := rfl
    rw [hstep] at h
    refine ih (dictSet m (piexifKey pName ifd kv.1) kv.2) ?_ key h
    intro key2 h2
    rcases dictGet_dictSet_isSome m (piexifKey pName ifd kv.1) kv.2 key2 h2 with he | he
    · rw [he]; exact piexifKey_contains_dot pName ifd kv.1
    · exact hm key2 he

theorem extract_exif_pass1_keys_dot (pName : String → ℕ → String)
    (gName : ℕ → String) (e : Option PiexifLoaded) :
    ∀ key, (dictGet (extract_exif pName gName e none) key).isSome = true →
      pyContains key '.' = true := by
  intro key h
  cases e with
  | none => simp [extract_exif, dictGet] at h
  | some d =>
    have h0 : ∀ k2, (dictGet ([] : List (String × String)) k2).isSome = true →
        pyContains k2 '.' = true := by
      intro k2 hk2; simp [dictGet] at hk2
    have h1 := addIfdTags_keys_dot pName "0th" d.ifd0 [] h0
    have h2 := addIfdTags_keys_dot pName "Exif" d.exifD _ h1
    have h3 := addIfdTags_keys_dot pName "GPS" d.gps _ h2
    have h4 := addIfdTags_keys_dot pName "1st" d.ifd1 _ h3
    exact h4 key h

theorem pillow_fold_preserves_dotted (gName : ℕ → String)
    (hg : ∀ k, pyContains (gName k) '.' = false) (items : List (ℕ × String)) :
    ∀ m key, pyContains key '.' = true →
      dictGet (items.foldl (fun m kv => dictSet m (gName kv.1) kv.2) m) key =
        dictGet m key := by
  induction items with
  | nil => intro m key hk; rfl
  | cons kv rest ih =>
    intro m key hk
    have hstep : (kv :: rest).foldl (fun m kv => dictSet m (gName kv.1) kv.2) m =
        rest.foldl (fun m kv => dictSet m (gName kv.1) kv.2)
          (dictSet m (gName kv.1) kv.2) := rfl
    rw [hstep, ih (dictSet m (gName kv.1) kv.2) key hk,
      dictGet_dictSet_ne m (gName kv.1) kv.2 key
        (fun he => absurd (he ▸ hk) (by simp [hg kv.1]))]

/-- Claim C9: in `extract_exif`, the secondary (Pillow getexif) pass never
overwrites a key written by the preferred (piexif) pass: every key the
preferred pass writes carries an `ifd.`-prefix and so contains a dot, while
the secondary pass writes plain tag names; under the hypothesis that the
secondary names contain no dot (true of the external `ExifTags.TAGS` names
and of the `str(k)` numeric fallback), every binding of the preferred pass
survives the merge unchanged. -/
theorem extract_exif_no_cross_pass_overwrite (pName : String → ℕ → String)
    (gName : ℕ → String) (e : Option PiexifLoaded)
    (pw : Option (List (ℕ × String)))
    (hg : ∀ k, pyContains (gName k) '.' = false) :
    (∀ key, (dictGet (extract_exif pName gName e none) key).isSome = true →
      pyContains key '.' = true) ∧
    (∀ key val, dictGet (extract_exif pName gName e none) key = some val →
      dictGet (extract_exif pName gName e pw) key = some val) := by
  refine ⟨extract_exif_pass1_keys_dot pName gName e, ?_⟩
  intro key val h
  have hdot : pyContains key '.' = true :=
    extract_exif_pass1_keys_dot pName gName e key (by rw [h]; rfl)
  cases pw with
  | none => exact h
  | some items =>
    have hu : extract_exif pName gName e (some items) =
        items.foldl (fun m kv => dictSet m (gName kv.1) kv.2)
          (extract_exif pName gName e none) := rfl
    rw [hu, pillow_fold_preserves_dotted gName hg items
      (extract_exif pName gName e none) key hdot]
    exact h

/-- Claim C9 witness: tag 271 decoded by both passes; the key the preferred
pass wrote under "0th." keeps its value after the secondary pass writes the
same tag under its flat name. -/
theorem extract_exif_no_cross_pass_overwrite_witness :
    dictGet (extract_exif (fun _ _ => "Tag") (fun _ => "Make")
      (some ⟨[(271, "X")], [], [], []⟩) (some [(271, "Y")])) "0th.Tag" =
      some "X" := by
  have h := (extract_exif_no_cross_pass_overwrite (fun _ _ => "Tag")
    (fun _ => "Make") (some ⟨[(271, "X")], [], [], []⟩) (some [(271, "Y")])
    (fun _ => by exact (by decide : pyContains "Make" '.' = false))).2
  exact h "0th.Tag" "X" (by decide)

/-- frac_to_float embeds `ImageService._frac_to_float` (diagnose_gps.py lines
65-77) on the string inputs it receives from `_coord_str_to_decimal`: strip,
split on the first `/` when present (`float(num) / float(den or 1)`, an empty
denominator text meaning 1), plain `float` otherwise; every error
(ValueError, ZeroDivisionError) is caught internally and gives `None`. -/
def frac_to_float (s : String) : Option ℚ :=
  let s := pyStrip s
  if pyContains s '/' then
    let ab := splitFirst s '/'
    match pyFloat ab.1 with
    | none => none
    | some x =>
      match (if ab.2 = "" then some 1 else pyFloat ab.2) with
      | none => none
      | some y => if y = 0 then none else some (x / y)
  else pyFloat s

/-- coord_str_to_decimal embeds `ImageService._coord_str_to_decimal`
(diagnose_gps.py lines 79-101): strip the value, remove quote characters and
brackets, split on commas, strip each part, require at least two parts,
`deg = float(partes[0])`, `minu = float(partes[1])`,
`sec = _frac_to_float(partes[2])` when a third part exists (`None` falling
back to 0.0), `decimal = deg + minu/60 + sec/3600`; when the upper-cased
reference starts with "S" or "W" the result is `-abs(decimal)`; any raised
error is caught and gives `None`. -/
def coord_str_to_decimal (coordStr : String) (ref : String) : Option ℚ :=
  let s := removeChar (removeChar (removeChar (removeChar (pyStrip coordStr)
    dquoteChar) squoteChar) '[') ']'
  let partes := (pySplit s ',').map pyStrip
  if partes.length < 2 then none
  else
    match pyFloat (partes.getD 0 ""), pyFloat (partes.getD 1 "") with
    | some deg, some minu =>
      let sec0 := if partes.length > 2 then frac_to_float (partes.getD 2 "")
                  else some 0
      let sec := sec0.getD 0
      let decimal := deg + minu / 60 + sec / 3600
      some (if pyStartsWith (pyUpper ref) "S" || pyStartsWith (pyUpper ref) "W"
            then -|decimal| else decimal)
    | some _, none => none
    | none, _ => none

/-- gps_from_exifread_bytes embeds `ImageService._gps_from_exifread_bytes`
(diagnose_gps.py lines 197-221) downstream of `exifread.process_file`:
require all four tags (exifread tag objects are truthy whenever present),
convert both components with `_coord_str_to_decimal` on the stringified
values, require both conversions to succeed, return `(lon_dd, lat_dd)`. -/
def gps_from_exifread_bytes (t : ExifreadGpsTags) : Option (ℚ × ℚ) :=
  match t.lat, t.lon, t.latRef, t.lonRef with
  | some lat, some lon, some latRef, some lonRef =>
    match coord_str_to_decimal lat latRef, coord_str_to_decimal lon lonRef with
    | some latDd, some lonDd => some (lonDd, latDd)
    | some _, none => none
    | none, _ => none
  | _, _, _, _ => none

/-- XmpFields models the outcome of the four field reads of `_parse_xmp_gps`
(diagnose_gps.py lines 145-155): `get_text` returns the stripped node text
when a node with truthy text exists, else `None`; the references then default
to "" through `or ""`. The packet byte-search and the ElementTree XML parse
are external, abstracted upstream of these fields. -/
structure XmpFields where
  latTxt : Option String
  lonTxt : Option String
  latRef : Option String
  lonRef : Option String
deriving Repr

/-- xmpToFloat embeds the local `to_float` of `_parse_xmp_gps`
(diagnose_gps.py lines 157-163): `None` or empty text gives `None`, else
`float` of the text with commas replaced by periods, `None` on error. -/
def xmpToFloat : Option String → Option ℚ
  | none => none
  | some s => if s = "" then none else pyFloat (mapChar s ',' '.')

/-- parse_xmp_gps embeds `ImageService._parse_xmp_gps` (diagnose_gps.py lines
136-175) from the four field reads on: latitude and longitude text must both
parse; a latitude reference whose upper-case starts with "S" forces
`lat = -abs(lat)`; a longitude reference whose upper-case starts with "W"
forces `lon = -abs(lon)`; the result is `(lon, lat)`. -/
def parse_xmp_gps (f : XmpFields) : Option (ℚ × ℚ) :=
  let latRef := f.latRef.getD ""
  let lonRef := f.lonRef.getD ""
  match xmpToFloat f.latTxt, xmpToFloat f.lonTxt with
  | some lat, some lon =>
    let lat := if pyStartsWith (pyUpper latRef) "S" then -|lat| else lat
    let lon := if pyStartsWith (pyUpper lonRef) "W" then -|lon| else lon
    some (lon, lat)
  | some _, none => none
  | none, _ => none

/-- PipelineInput models the per-stage decode outcomes feeding
`extract_gps_from_original` of diagnose_gps.py (lines 244-299), the version
with the full five-stage chain. `erTags`: `none` = `exifread.process_file`
raised. `exif0`: outer `none` = `Image.open` raised or no exif exposed
(falsy); `some none` = `piexif.load` raised; `some (some g)` = GPS directory
decoded. `xmp`: `none` = no `<x:xmpmeta>` packet found or the XML parse
failed; `some f` = fields read. `iso`: the result of the `_find_iso6709`
byte-regex scan (external `re` module). `compressedExif`: same shape as
`exif0` for the optional compressed image, outer `none` also when no
compressed image was supplied. -/
structure PipelineInput where
  erTags : Option ExifreadGpsTags
  exif0 : Option (Option GpsIfd)
  xmp : Option XmpFields
  iso : Option (ℚ × ℚ)
  compressedExif : Option (Option GpsIfd)
deriving Repr

/-- pipelineStage1 is stage 1 of the diagnose pipeline: exifread on the
original bytes. -/
def pipelineStage1 (inp : PipelineInput) : Option (ℚ × ℚ) :=
  match inp.erTags with
  | some t => gps_from_exifread_bytes t
  | none => none

/-- pipelineStage2 is stage 2: piexif on the EXIF bytes of the original. -/
def pipelineStage2 (inp : PipelineInput) : Option (ℚ × ℚ) :=
  match inp.exif0 with
  | some (some g) => gps_from_piexif_ifd g
  | _ => none

/-- pipelineStage3 is stage 3: the embedded XMP packet. -/
def pipelineStage3 (inp : PipelineInput) : Option (ℚ × ℚ) :=
  match inp.xmp with
  | some f => parse_xmp_gps f
  | none => none

/-- pipelineStage4 is stage 4: the QuickTime ISO6709 scan. -/
def pipelineStage4 (inp : PipelineInput) : Option (ℚ × ℚ) :=
  inp.iso

/-- pipelineStage5 is stage 5: piexif on the compressed image's EXIF. -/
def pipelineStage5 (inp : PipelineInput) : Option (ℚ × ℚ) :=
  match inp.compressedExif with
  | some (some g) => gps_from_piexif_ifd g
  | _ => none

/-- extract_gps_from_original embeds `ImageService.extract_gps_from_original`
of diagnose_gps.py (lines 244-299): the five stages in the source's order —
exifread, piexif on the original, XMP, ISO6709, piexif on the compressed
image — with the first truthy result returned and `None` after all five fail
(a returned coordinate tuple is always truthy in Python). -/
def extract_gps_from_original (inp : PipelineInput) : Option (ℚ × ℚ) :=
  match pipelineStage1 inp with
  | some gps => some gps
  | none =>
  match pipelineStage2 inp with
  | some gps => some gps
  | none =>
  match pipelineStage3 inp with
  | some gps => some gps
  | none =>
  match pipelineStage4 inp with
  | some gps => some gps
  | none => pipelineStage5 inp

theorem coord_str_one : coord_str_to_decimal "[1, 0, 0]" "N" = some 1 := by
  have hparts : (pySplit (removeChar (removeChar (removeChar (removeChar
      (pyStrip "[1, 0, 0]") dquoteChar) squoteChar) '[') ']') ',').map pyStrip =
      ["1", "0", "0"] := by decide
  have hN : (pyStartsWith (pyUpper "N") "S" || pyStartsWith (pyUpper "N") "W") = false := by
    decide
  simp only [coord_str_to_decimal, hparts, hN]
  have ha : pyFloat "1" = some 1 := by decide
  have hb : pyFloat "0" = some 0 := by decide
  have hc : (frac_to_float "0").getD 0 = (0 : ℚ) := by decide
  simp [ha, hb, hc]

theorem coord_str_two : coord_str_to_decimal "[2, 0, 0]" "E" = some 2 := by
  have hparts : (pySplit (removeChar (removeChar (removeChar (removeChar
      (pyStrip "[2, 0, 0]") dquoteChar) squoteChar) '[') ']') ',').map pyStrip =
      ["2", "0", "0"] := by decide
  have hE : (pyStartsWith (pyUpper "E") "S" || pyStartsWith (pyUpper "E") "W") = false := by
    decide
  simp only [coord_str_to_decimal, hparts, hE]
  have ha : pyFloat "2" = some 2 := by decide
  have hb : pyFloat "0" = some 0 := by decide
  have hc : (frac_to_float "0").getD 0 = (0 : ℚ) := by decide
  simp [ha, hb, hc]

theorem componentDd_three :
    componentDd [RatVal.pair 3 1] (PyRef.str "N") = Except.ok 3 := by
  simp [componentDd, dmsOfVals, ratio_to_float, except_bind_ok, except_pure,
    dms_to_dd, hemiNegates]

theorem componentDd_four :
    componentDd [RatVal.pair 4 1] (PyRef.str "E") = Except.ok 4 := by
  simp [componentDd, dmsOfVals, ratio_to_float, except_bind_ok, except_pure,
    dms_to_dd, hemiNegates]

/-- cexTags is the concrete exifread tag set of the C1 counterexample input:
it decodes to longitude 2, latitude 1. -/
def cexTags : ExifreadGpsTags :=
  { lat := some "[1, 0, 0]", latRef := some "N",
    lon := some "[2, 0, 0]", lonRef := some "E" }

/-- cexIfd is the concrete piexif GPS directory of the C1 counterexample
input: it decodes to longitude 4, latitude 3. -/
def cexIfd : GpsIfd :=
  { lat := some [RatVal.pair 3 1], latRef := some (PyRef.str "N"),
    lon := some [RatVal.pair 4 1], lonRef := some (PyRef.str "E") }

/-- cexInput carries both sources at once, so the text stage and the binary
stage would each succeed, with different coordinates. -/
def cexInput : PipelineInput :=
  { erTags := some cexTags, exif0 := some (some cexIfd),
    xmp := none, iso := none, compressedExif := none }

theorem gps_piexif_cexIfd : gps_from_piexif_ifd cexIfd = some (4, 3) := by
  rw [gps_from_piexif_ifd, piexifGpsBody_guard_true _ (by decide)]
  simp [cexIfd, componentDd_three, componentDd_four, except_bind_ok,
    except_map_ok, except_pure]

/-- Claim C1 counterexample: an input on which the structured binary decode
(piexif, the stage the claim puts first) succeeds with (4, 3), yet the
pipeline returns (2, 1), the result of the exifread text decode: the code
tries the text decode before the binary decode, contrary to the claim's
stage order. -/
theorem pipeline_binary_before_text_fails :
    pipelineStage2 cexInput = some (4, 3) ∧
    extract_gps_from_original cexInput = some (2, 1) ∧
    ((2 : ℚ), (1 : ℚ)) ≠ ((4 : ℚ), (3 : ℚ)) := by
  have hs2 : pipelineStage2 cexInput = some (4, 3) := by
    rw [pipelineStage2]
    exact gps_piexif_cexIfd
  have hs1 : pipelineStage1 cexInput = some (2, 1) := by
    rw [pipelineStage1]
    simp only [cexInput, cexTags, gps_from_exifread_bytes, coord_str_one,
      coord_str_two]
  refine ⟨hs2, ?_, ?_⟩
  · rw [extract_gps_from_original, hs1]
  · intro h
    have h2 := congrArg Prod.fst h
    norm_num at h2

/-- Claim C1 (amended): the five-stage pipeline of diagnose_gps.py tries its
resolvers in the order text decode (exifread) on the original bytes, then
structured binary decode (piexif) on the original's EXIF bytes, then the XMP
packet scan, then the QuickTime ISO6709 scan, then the structured decode of
the derivative/compressed image; the first stage to produce a coordinate
wins, and when every stage fails the result is the explicit empty result
`None` rather than an exception. -/
theorem extract_gps_pipeline_order (inp : PipelineInput) :
    (∀ g, pipelineStage1 inp = some g → extract_gps_from_original inp = some g) ∧
    (pipelineStage1 inp = none → ∀ g, pipelineStage2 inp = some g →
      extract_gps_from_original inp = some g) ∧
    (pipelineStage1 inp = none → pipelineStage2 inp = none →
      ∀ g, pipelineStage3 inp = some g → extract_gps_from_original inp = some g) ∧
    (pipelineStage1 inp = none → pipelineStage2 inp = none →
      pipelineStage3 inp = none → ∀ g, pipelineStage4 inp = some g →
      extract_gps_from_original inp = some g) ∧
    (pipelineStage1 inp = none → pipelineStage2 inp = none →
      pipelineStage3 inp = none → pipelineStage4 inp = none →
      extract_gps_from_original inp = pipelineStage5 inp) ∧
    (pipelineStage1 inp = none → pipelineStage2 inp = none →
      pipelineStage3 inp = none → pipelineStage4 inp = none →
      pipelineStage5 inp = none → extract_gps_from_original inp = none) := by
  refine ⟨?_, ?_, ?_, ?_, ?_, ?_⟩
  · intro g h; rw [extract_gps_from_original, h]
  · intro h1 g h; rw [extract_gps_from_original, h1, h]
  · intro h1 h2 g h; rw [extract_gps_from_original, h1, h2, h]
  · intro h1 h2 h3 g h; rw [extract_gps_from_original, h1, h2, h3, h]
  · intro h1 h2 h3 h4; rw [extract_gps_from_original, h1, h2, h3, h4]
  · intro h1 h2 h3 h4 h5
    rw [extract_gps_from_original, h1, h2, h3, h4]
    exact h5

/-- Claim C1 witness: with every stage's source absent, the pipeline returns
the explicit empty result. -/
theorem extract_gps_pipeline_order_witness :
    extract_gps_from_original
      { erTags := none, exif0 := none, xmp := none, iso := none,
        compressedExif := none } = none :=
  (extract_gps_pipeline_order
    { erTags := none, exif0 := none, xmp := none, iso := none,
      compressedExif := none }).2.2.2.2.2 rfl rfl rfl rfl rfl

/-- cexXmp is the concrete XMP field set of the C10 counterexample: a
positive longitude text with a longitude reference of "S". -/
def cexXmp : XmpFields :=
  { latTxt := some "1", lonTxt := some "5",
    latRef := some "N", lonRef := some "S" }

/-- Claim C10 counterexample: in the XMP path a longitude hemisphere
reference beginning with "S" does not force the longitude component
non-positive: the longitude branch checks only "W", so the positive parsed
value 5 is returned unchanged as the first component. -/
theorem xmp_lon_ref_S_not_negated :
    pyStartsWith (pyUpper "S") "S" = true ∧
    parse_xmp_gps cexXmp = some (5, 1) ∧
    ¬ ((5 : ℚ) ≤ 0) := by
  refine ⟨by decide, by decide, by norm_num⟩

/-- Claim C10 (amended): in the text-decode path, whenever the hemisphere
reference begins with "S" or "W" (case-insensitively), the returned component
is non-positive, because the sign is applied as the negated absolute value —
so an already-negative parsed value is not flipped back positive, unlike the
plain negation used in the binary path's `_dms_to_dd`; in the XMP path the
same holds per component with its own letter only: the latitude for a
reference beginning with "S", the longitude for one beginning with "W". -/
theorem text_and_xmp_sign_forces_nonpositive (coordStr ref : String) (v : ℚ)
    (f : XmpFields) (lon lat : ℚ) :
    ((pyStartsWith (pyUpper ref) "S" || pyStartsWith (pyUpper ref) "W") = true →
      coord_str_to_decimal coordStr ref = some v → v ≤ 0) ∧
    (pyStartsWith (pyUpper (f.latRef.getD "")) "S" = true →
      parse_xmp_gps f = some (lon, lat) → lat ≤ 0) ∧
    (pyStartsWith (pyUpper (f.lonRef.getD "")) "W" = true →
      parse_xmp_gps f = some (lon, lat) → lon ≤ 0) := by
  refine ⟨?_, ?_, ?_⟩
  · intro hc hv
    unfold coord_str_to_decimal at hv
    rw [hc] at hv
    dsimp only [] at hv
    by_cases hlen : (List.map pyStrip (pySplit (removeChar (removeChar (removeChar
        (removeChar (pyStrip coordStr) dquoteChar) squoteChar) '[') ']') ',')).length < 2
    · rw [if_pos hlen] at hv
      exact absurd hv (by simp)
    · rw [if_neg hlen] at hv
      cases hA : pyFloat ((List.map pyStrip (pySplit (removeChar (removeChar (removeChar
          (removeChar (pyStrip coordStr) dquoteChar) squoteChar) '[') ']') ',')).getD 0 "") with
      | none => rw [hA] at hv; exact absurd hv (by simp)
      | some deg =>
        cases hB : pyFloat ((List.map pyStrip (pySplit (removeChar (removeChar (removeChar
            (removeChar (pyStrip coordStr) dquoteChar) squoteChar) '[') ']') ',')).getD 1 "") with
        | none => rw [hA, hB] at hv; exact absurd hv (by simp)
        | some minu =>
          rw [hA, hB] at hv
          simp only [Option.some.injEq] at hv
          rw [← hv]
          exact neg_nonpos.mpr (abs_nonneg _)
  · intro hc hv
    unfold parse_xmp_gps at hv
    dsimp only [] at hv
    rw [hc] at hv
    cases hA : xmpToFloat f.latTxt with
    | none => rw [hA] at hv; exact absurd hv (by simp)
    | some lat0 =>
      cases hB : xmpToFloat f.lonTxt with
      | none => rw [hA, hB] at hv; exact absurd hv (by simp)
      | some lon0 =>
        rw [hA, hB] at hv
        simp only [Option.some.injEq, Prod.mk.injEq] at hv
        rw [← hv.2]
        exact neg_nonpos.mpr (abs_nonneg _)
  · intro hc hv
    unfold parse_xmp_gps at hv
    dsimp only [] at hv
    rw [hc] at hv
    cases hA : xmpToFloat f.latTxt with
    | none => rw [hA] at hv; exact absurd hv (by simp)
    | some lat0 =>
      cases hB : xmpToFloat f.lonTxt with
      | none => rw [hA, hB] at hv; exact absurd hv (by simp)
      | some lon0 =>
        rw [hA, hB] at hv
        simp only [Option.some.injEq, Prod.mk.injEq] at hv
        rw [← hv.1]
        exact neg_nonpos.mpr (abs_nonneg _)

theorem coord_str_lower_s : coord_str_to_decimal "[1, 0, 0]" "s" = some (-1) := by
  have hparts : (pySplit (removeChar (removeChar (removeChar (removeChar
      (pyStrip "[1, 0, 0]") dquoteChar) squoteChar) '[') ']') ',').map pyStrip =
      ["1", "0", "0"] := by decide
  have hS : (pyStartsWith (pyUpper "s") "S" || pyStartsWith (pyUpper "s") "W") = true := by
    decide
  simp only [coord_str_to_decimal, hparts, hS]
  have ha : pyFloat "1" = some 1 := by decide
  have hb : pyFloat "0" = some 0 := by decide
  have hc : (frac_to_float "0").getD 0 = (0 : ℚ) := by decide
  simp [ha, hb, hc]

/-- Claim C10 witness: the lowercase text reference "s" forces the text-path
component of "[1, 0, 0]" to the non-positive value -1. -/
theorem text_and_xmp_sign_forces_nonpositive_witness :
    coord_str_to_decimal "[1, 0, 0]" "s" = some (-1) ∧ ((-1 : ℚ) ≤ 0) :=
  ⟨coord_str_lower_s,
    (text_and_xmp_sign_forces_nonpositive "[1, 0, 0]" "s" (-1)
      ⟨none, none, none, none⟩ 0 0).1 (by decide) coord_str_lower_s⟩
